import Mathlib

/-!
Shallow embedding of the mode/state controller of the pigweed-sense-playground
repository: the LED output layer (`LedOutputStateMachine`), the mode state
machine (`StateManager` with its seven modes), the published event kinds, the
pubsub `Event` variant, and the `Blinky` blink service.

Pure data is embedded as Lean structures; every C++ member function that
mutates state becomes a Lean function from the state to the new state.
Machine integers (uint8/uint16/uint32) are modelled as `Nat`: the only
arithmetic performed on them (threshold clamping at 0 and 768) never reaches
a wraparound point, so no modular reduction is needed.  Durations are in
seconds.  Hardware effects (the physical LED, log lines, published events)
are modelled as explicit components of the state.
-/

set_option maxHeartbeats 1000000

namespace sense

/-- RGB value carried by LED events (`LedValue` in pubsub_events.h):
three 8-bit channels. -/
structure LedValue where
  r : Nat
  g : Nat
  b : Nat
deriving DecidableEq, Repr

/-- Payload of a morse-code edge event (`MorseCodeValue`): whether the LED
turns on at this edge and whether the encoded message just finished. -/
structure MorseCodeValue where
  turn_on : Bool
  message_finished : Bool
deriving DecidableEq, Repr

/-- The two states of `LedOutputStateMachine` (the anonymous `enum : bool`
in state_manager.h). -/
inductive LedSMState where
  | kPassthrough
  | kOverride
deriving DecidableEq, Repr

/-- Color as last written to the physical LED driver: `PolychromeLed` has a
three-channel `SetColor(r, g, b)` and a packed-`uint32` `SetColor(color)`
overload; `Override` uses the packed form, `UpdateLed` the triple form. -/
inductive HwColor where
  | rgb (r g b : Nat)
  | packed (c : Nat)
deriving DecidableEq, Repr

/-- Observable state of the physical LED driver (`PolychromeLed`): the last
color and brightness written to it. -/
structure PolychromeLed where
  color : HwColor
  brightness : Nat
deriving DecidableEq, Repr

/-- `LedOutputStateMachine`: passthrough/override flag, the stored
passthrough color channels and brightness, and the hardware LED it drives. -/
structure LedOutputStateMachine where
  state : LedSMState
  brightness : Nat
  red : Nat
  green : Nat
  blue : Nat
  led : PolychromeLed
deriving DecidableEq, Repr

/-- `LedOutputStateMachine::UpdateLed`: if in passthrough state, write the
stored color and brightness to the hardware LED; otherwise do nothing. -/
def LedOutputStateMachine.UpdateLed (m : LedOutputStateMachine) :
    LedOutputStateMachine :=
  if m.state = LedSMState.kPassthrough then
    { m with led := { color := HwColor.rgb m.red m.green m.blue,
                      brightness := m.brightness } }
  else m

/-- `LedOutputStateMachine::Override(color, brightness)`: enter override
state and write the given packed color and brightness directly to the
hardware LED, leaving the stored passthrough values untouched. -/
def LedOutputStateMachine.Override (m : LedOutputStateMachine)
    (color brightness : Nat) : LedOutputStateMachine :=
  { m with state := LedSMState.kOverride,
           led := { color := HwColor.packed color, brightness := brightness } }

/-- `LedOutputStateMachine::EndOverride`: return to passthrough state and
re-apply the stored passthrough values via `UpdateLed`. -/
def LedOutputStateMachine.EndOverride (m : LedOutputStateMachine) :
    LedOutputStateMachine :=
  LedOutputStateMachine.UpdateLed { m with state := LedSMState.kPassthrough }

/-- `LedOutputStateMachine::SetColor(value)`: store the channels of `value`
as the passthrough color, then `UpdateLed`. -/
def LedOutputStateMachine.SetColor (m : LedOutputStateMachine)
    (value : LedValue) : LedOutputStateMachine :=
  LedOutputStateMachine.UpdateLed
    { m with red := value.r, green := value.g, blue := value.b }

/-- `LedOutputStateMachine::SetBrightness(brightness)`: store the passthrough
brightness, then `UpdateLed`. -/
def LedOutputStateMachine.SetBrightness (m : LedOutputStateMachine)
    (brightness : Nat) : LedOutputStateMachine :=
  LedOutputStateMachine.UpdateLed { m with brightness := brightness }

/-- The seven mode variants of the state machine (the alternatives of the
`CommonBaseUnion` member `state_` of `StateManager`). -/
inductive ModeK where
  | AirQualityMode
  | AirQualityThresholdMode
  | AirQualityAlarmMode
  | MorseReadout
  | ProximityDemo
  | MorseCodeDemo
  | ColorRotationDemo
deriving DecidableEq, Repr

/-- The `name()` string each mode passes to the `State` base constructor. -/
def modeName : ModeK → String
  | ModeK.AirQualityMode => "AirQualityMode"
  | ModeK.AirQualityThresholdMode => "AirQualityThresholdMode"
  | ModeK.AirQualityAlarmMode => "AirQualityAlarmMode"
  | ModeK.MorseReadout => "MorseReadout"
  | ModeK.ProximityDemo => "ProximityDemo"
  | ModeK.MorseCodeDemo => "MorseCodeDemo"
  | ModeK.ColorRotationDemo => "ColorRotationDemo"

/-- Event kinds constructed and published by the state manager itself
(`DemoModeTimerExpired`, `AlarmSilenceRequest`, `MorseEncodeRequest`
in state_manager.h).  `repeats = 0` means repeat forever. -/
inductive PubEvent where
  | demoModeTimerExpired
  | alarmSilenceRequest (seconds : Nat)
  | morseEncodeRequest (message : String) (repeats : Nat)
deriving DecidableEq, Repr

/-- `StateManager::kDemoModeTimeout` (30 seconds). -/
def kDemoModeTimeout : Nat := 30

/-- `AirQualityThresholdMode::kThresholdModeTimeout` (3 seconds). -/
def kThresholdModeTimeout : Nat := 3

/-- `StateManager::kDefaultBrightness`. -/
def kDefaultBrightness : Nat := 220

/-- `StateManager::kThresholdIncrement`. -/
def kThresholdIncrement : Nat := 128

/-- `StateManager::kMaxThreshold`. -/
def kMaxThreshold : Nat := 768

/-- The state of `StateManager`: the LED output layer, the single active
mode, the demo-mode countdown timer (`some d` = armed with duration `d`
seconds, `none` = unarmed), the controller-owned persistent fields, the
events it has published (most recent first), and the transition log of
(old-name, new-name) pairs (most recent first). -/
structure StateManager where
  led : LedOutputStateMachine
  mode : ModeK
  timer : Option Nat
  alarmed : Bool
  current_threshold : Nat
  last_air_quality_score : Nat
  air_quality_score_string : String
  published : List PubEvent
  log : List (String × String)
deriving DecidableEq, Repr

/-- `pw::chrono::SystemTimer::Cancel` on the demo-mode timer: the timer
becomes unarmed; cancelling an unarmed timer changes nothing. -/
def StateManager.cancelTimer (s : StateManager) : StateManager :=
  { s with timer := none }

/-- The expiry callback installed in the `StateManager` constructor:
`pubsub_->Publish(DemoModeTimerExpired{})`. -/
def StateManager.timerExpiryCallback (s : StateManager) : StateManager :=
  { s with published := PubEvent.demoModeTimerExpired :: s.published }

/-- Modelled from the spec: `StateManager::LogStateChange` (its body is in
state_manager.cc, which is not under src/) logs the (old-name, new-name)
pair of a transition. -/
def StateManager.LogStateChange (old_state : String) (s : StateManager) :
    StateManager :=
  { s with log := (old_state, modeName s.mode) :: s.log }

/-- Modelled from the spec: `StateManager::DisplayThreshold` (its body is in
state_manager.cc, which is not under src/) re-renders the current threshold
into the fixed-capacity display string. -/
def StateManager.DisplayThreshold (s : StateManager) : StateManager :=
  { s with air_quality_score_string := toString s.current_threshold }

/-- Modelled from the spec: `StateManager::StartMorseReadout` (its body is in
state_manager.cc, which is not under src/) starts a morse readout of the
air-quality message by publishing a morse-encode request, repeating forever
(`repeats = 0`) when `rep` is set and once otherwise. -/
def StateManager.StartMorseReadout (rep : Bool) (s : StateManager) :
    StateManager :=
  let e := PubEvent.morseEncodeRequest s.air_quality_score_string
    (if rep then 0 else 1)
  { s with published := e :: s.published }

/-- The `State` base-class constructor body:
`manager_.led_.SetBrightness(kDefaultBrightness)`. -/
def StateManager.stateCtor (s : StateManager) : StateManager :=
  { s with led := s.led.SetBrightness kDefaultBrightness }

/-- The `TimeoutState` constructor body: run the `State` base constructor,
then `manager.demo_mode_timer_.InvokeAfter(timeout)`. -/
def StateManager.timeoutCtor (timeout : Nat) (s : StateManager) :
    StateManager :=
  { s.stateCtor with timer := some timeout }

/-- `state_.emplace<StateType>(*this)`: destroy the current mode value and
construct the new one in the same storage, running its constructor chain
(the entry action).  After this, the active mode is `m`. -/
def StateManager.emplace (m : ModeK) (s : StateManager) : StateManager :=
  let s1 : StateManager :=
    match m with
    | ModeK.AirQualityMode => s.stateCtor
    | ModeK.AirQualityThresholdMode =>
        (StateManager.timeoutCtor kThresholdModeTimeout s).DisplayThreshold
    | ModeK.AirQualityAlarmMode => s.stateCtor.StartMorseReadout true
    | ModeK.MorseReadout => s.stateCtor.StartMorseReadout false
    | ModeK.ProximityDemo => StateManager.timeoutCtor kDemoModeTimeout s
    | ModeK.MorseCodeDemo =>
        let s2 := StateManager.timeoutCtor kDemoModeTimeout s
        let s3 := { s2 with led := s2.led.SetColor ⟨0, 255, 255⟩ }
        { s3 with published :=
            PubEvent.morseEncodeRequest "PW" 0 :: s3.published }
    | ModeK.ColorRotationDemo => StateManager.timeoutCtor kDemoModeTimeout s
  { s1 with mode := m }

/-- `StateManager::SetState<StateType>()`: cancel the demo-mode timer,
remember the old mode's name, emplace the new mode (destroying the old one
and running the new constructor chain in the same storage), and log the
(old-name, new-name) pair. -/
def StateManager.SetState (m : ModeK) (s : StateManager) : StateManager :=
  let s1 := s.cancelTimer
  let old_state := modeName s.mode
  let s2 := StateManager.emplace m s1
  StateManager.LogStateChange old_state s2

/-- Modelled from the spec: `StateManager::IncrementThreshold` (its body is
in state_manager.cc, which is not under src/) adds `kThresholdIncrement` to
the current threshold clamped to at most `kMaxThreshold`, re-renders the
display string, and re-arms the countdown with the given duration. -/
def StateManager.IncrementThreshold (timeout : Nat) (s : StateManager) :
    StateManager :=
  let t := min (s.current_threshold + kThresholdIncrement) kMaxThreshold
  let s1 := { s with current_threshold := t }
  { s1.DisplayThreshold with timer := some timeout }

/-- Modelled from the spec: `StateManager::DecrementThreshold` (its body is
in state_manager.cc, which is not under src/) subtracts `kThresholdIncrement`
from the current threshold clamped to at least 0, re-renders the display
string, and re-arms the countdown with the given duration. -/
def StateManager.DecrementThreshold (timeout : Nat) (s : StateManager) :
    StateManager :=
  let t := s.current_threshold - kThresholdIncrement
  let s1 := { s with current_threshold := t }
  { s1.DisplayThreshold with timer := some timeout }

/-- Virtual dispatch of `State::AlarmStateChanged(alarm)`: no mode overrides
it, so the base-class body runs in every mode — if the flag equals the stored
`alarmed_`, return; otherwise update `alarmed_` and force a transition to
`AirQualityAlarmMode` or `AirQualityMode`. -/
def StateManager.AlarmStateChanged (alarm : Bool) (s : StateManager) :
    StateManager :=
  if s.alarmed = alarm then s
  else
    let s1 := { s with alarmed := alarm }
    if alarm then s1.SetState ModeK.AirQualityAlarmMode
    else s1.SetState ModeK.AirQualityMode

/-- Virtual dispatch of `State::ButtonAReleased`: the default transitions to
`AirQualityThresholdMode`; only `AirQualityThresholdMode` overrides it, to
increment the threshold. -/
def StateManager.ButtonAReleased (s : StateManager) : StateManager :=
  match s.mode with
  | ModeK.AirQualityThresholdMode =>
      s.IncrementThreshold kThresholdModeTimeout
  | _ => s.SetState ModeK.AirQualityThresholdMode

/-- Virtual dispatch of `State::ButtonBReleased`: the default transitions to
`AirQualityThresholdMode`; only `AirQualityThresholdMode` overrides it, to
decrement the threshold. -/
def StateManager.ButtonBReleased (s : StateManager) : StateManager :=
  match s.mode with
  | ModeK.AirQualityThresholdMode =>
      s.DecrementThreshold kThresholdModeTimeout
  | _ => s.SetState ModeK.AirQualityThresholdMode

/-- Virtual dispatch of `State::ButtonXReleased`: no-op by default;
`AirQualityMode` and `MorseReadout` go to `ProximityDemo`, and the three
demo modes cycle `ProximityDemo` → `MorseCodeDemo` → `ColorRotationDemo` →
`ProximityDemo`. -/
def StateManager.ButtonXReleased (s : StateManager) : StateManager :=
  match s.mode with
  | ModeK.AirQualityMode => s.SetState ModeK.ProximityDemo
  | ModeK.MorseReadout => s.SetState ModeK.ProximityDemo
  | ModeK.ProximityDemo => s.SetState ModeK.MorseCodeDemo
  | ModeK.MorseCodeDemo => s.SetState ModeK.ColorRotationDemo
  | ModeK.ColorRotationDemo => s.SetState ModeK.ProximityDemo
  | _ => s

/-- Virtual dispatch of `State::ButtonYReleased`: no-op by default;
`TimeoutState` (inherited by the threshold mode and the three demo modes)
goes to `MorseReadout`; `AirQualityMode` goes to `MorseReadout`;
`MorseReadout` goes to `AirQualityMode`; `AirQualityAlarmMode` publishes an
`AlarmSilenceRequest` for 60 seconds. -/
def StateManager.ButtonYReleased (s : StateManager) : StateManager :=
  match s.mode with
  | ModeK.AirQualityMode => s.SetState ModeK.MorseReadout
  | ModeK.AirQualityThresholdMode => s.SetState ModeK.MorseReadout
  | ModeK.AirQualityAlarmMode =>
      { s with published := PubEvent.alarmSilenceRequest 60 :: s.published }
  | ModeK.MorseReadout => s.SetState ModeK.AirQualityMode
  | ModeK.ProximityDemo => s.SetState ModeK.MorseReadout
  | ModeK.MorseCodeDemo => s.SetState ModeK.MorseReadout
  | ModeK.ColorRotationDemo => s.SetState ModeK.MorseReadout

/-- Virtual dispatch of `State::ProximityModeLedValue`: no-op except in
`ProximityDemo`, which passes the color to the output layer. -/
def StateManager.ProximityModeLedValue (value : LedValue) (s : StateManager) :
    StateManager :=
  match s.mode with
  | ModeK.ProximityDemo => { s with led := s.led.SetColor value }
  | _ => s

/-- Virtual dispatch of `State::AirQualityModeLedValue`: no-op except in
`AirQualityMode` and `AirQualityAlarmMode`, which pass the color to the
output layer. -/
def StateManager.AirQualityModeLedValue (value : LedValue)
    (s : StateManager) : StateManager :=
  match s.mode with
  | ModeK.AirQualityMode => { s with led := s.led.SetColor value }
  | ModeK.AirQualityAlarmMode => { s with led := s.led.SetColor value }
  | _ => s

/-- Virtual dispatch of `State::ColorRotationModeLedValue`: no-op except in
`ColorRotationDemo`, which passes the color to the output layer. -/
def StateManager.ColorRotationModeLedValue (value : LedValue)
    (s : StateManager) : StateManager :=
  match s.mode with
  | ModeK.ColorRotationDemo => { s with led := s.led.SetColor value }
  | _ => s

/-- Virtual dispatch of `State::MorseCodeEdge`: no-op by default;
`AirQualityAlarmMode` and `MorseCodeDemo` drive the brightness on/off;
`MorseReadout` does the same and additionally returns to `AirQualityMode`
when the message finishes. -/
def StateManager.MorseCodeEdge (value : MorseCodeValue) (s : StateManager) :
    StateManager :=
  let b := if value.turn_on then kDefaultBrightness else 0
  match s.mode with
  | ModeK.AirQualityAlarmMode => { s with led := s.led.SetBrightness b }
  | ModeK.MorseReadout =>
      let s1 := { s with led := s.led.SetBrightness b }
      if value.message_finished then s1.SetState ModeK.AirQualityMode else s1
  | ModeK.MorseCodeDemo => { s with led := s.led.SetBrightness b }
  | _ => s

/-- Virtual dispatch of `State::DemoModeTimerExpired`: no-op by default;
`TimeoutState` (inherited by the threshold mode and the three demo modes)
overrides it to return to `AirQualityMode`. -/
def StateManager.DemoModeTimerExpired (s : StateManager) : StateManager :=
  match s.mode with
  | ModeK.AirQualityThresholdMode => s.SetState ModeK.AirQualityMode
  | ModeK.ProximityDemo => s.SetState ModeK.AirQualityMode
  | ModeK.MorseCodeDemo => s.SetState ModeK.AirQualityMode
  | ModeK.ColorRotationDemo => s.SetState ModeK.AirQualityMode
  | _ => s

/-- Whether a mode arms the demo-mode timer on entry, i.e. derives from
`TimeoutState`. -/
def timeoutBearing : ModeK → Bool
  | ModeK.AirQualityThresholdMode => true
  | ModeK.ProximityDemo => true
  | ModeK.MorseCodeDemo => true
  | ModeK.ColorRotationDemo => true
  | _ => false

/-- The timer duration a mode arms on entry: 3 seconds for the threshold
mode, 30 seconds for the three demo modes, nothing otherwise. -/
def timeoutOf : ModeK → Option Nat
  | ModeK.AirQualityThresholdMode => some kThresholdModeTimeout
  | ModeK.ProximityDemo => some kDemoModeTimeout
  | ModeK.MorseCodeDemo => some kDemoModeTimeout
  | ModeK.ColorRotationDemo => some kDemoModeTimeout
  | _ => none

/-- A threshold-adjustment request: a `ButtonAReleased` (increment) or
`ButtonBReleased` (decrement) delivered while in
`AirQualityThresholdMode`. -/
inductive ThresholdOp where
  | inc
  | dec
deriving DecidableEq, Repr

/-- Apply one threshold adjustment with re-arm duration `d`. -/
def applyThresholdOp (d : Nat) (op : ThresholdOp) (s : StateManager) :
    StateManager :=
  match op with
  | ThresholdOp.inc => s.IncrementThreshold d
  | ThresholdOp.dec => s.DecrementThreshold d

/-- Apply a finite sequence of threshold adjustments, oldest first. -/
def applyThresholdOps (d : Nat) : List ThresholdOp → StateManager →
    StateManager
  | [], s => s
  | op :: ops, s => applyThresholdOps d ops (applyThresholdOp d op s)

/-- The alternatives of the pubsub `Event` variant as declared in
pubsub_events.h (`using Event = std::variant<...>`): exactly these twelve
kinds, in declaration order. -/
inductive EventK where
  | AlarmStateChange
  | ButtonA
  | ButtonB
  | ButtonX
  | ButtonY
  | LedValueColorRotationMode
  | LedValueMorseCodeMode
  | LedValueProximityMode
  | LedValueAirQualityMode
  | ProximityStateChange
  | ProximitySample
  | AirQuality
deriving DecidableEq, Repr

/-- The wire-contract name of each `Event` alternative, in the vocabulary of
the specification's event table. -/
def eventKindName : EventK → String
  | EventK.AlarmStateChange => "alarm-state-changed"
  | EventK.ButtonA => "button-A-state-changed"
  | EventK.ButtonB => "button-B-state-changed"
  | EventK.ButtonX => "button-X-state-changed"
  | EventK.ButtonY => "button-Y-state-changed"
  | EventK.LedValueColorRotationMode => "led-value-color-rotation"
  | EventK.LedValueMorseCodeMode => "led-value-morse-code"
  | EventK.LedValueProximityMode => "led-value-proximity"
  | EventK.LedValueAirQualityMode => "led-value-air-quality"
  | EventK.ProximityStateChange => "proximity-state-changed"
  | EventK.ProximitySample => "proximity-sample"
  | EventK.AirQuality => "air-quality-score"

/-- The wire-contract names of all twelve `Event` alternatives, in
declaration order. -/
def eventVariantKindNames : List String :=
  [eventKindName EventK.AlarmStateChange,
   eventKindName EventK.ButtonA,
   eventKindName EventK.ButtonB,
   eventKindName EventK.ButtonX,
   eventKindName EventK.ButtonY,
   eventKindName EventK.LedValueColorRotationMode,
   eventKindName EventK.LedValueMorseCodeMode,
   eventKindName EventK.LedValueProximityMode,
   eventKindName EventK.LedValueAirQualityMode,
   eventKindName EventK.ProximityStateChange,
   eventKindName EventK.ProximitySample,
   eventKindName EventK.AirQuality]

/-- The wire-contract name of each event kind the state manager itself
constructs and publishes. -/
def pubEventKindName : PubEvent → String
  | PubEvent.demoModeTimerExpired => "demo-timer-expired"
  | PubEvent.alarmSilenceRequest _ => "alarm-silence-request"
  | PubEvent.morseEncodeRequest _ _ => "morse-encode-request"

/-- `pw::Status` as used by the blinky module: only `OkStatus()` is ever
returned by the embedded functions. -/
inductive PwStatus where
  | ok
  | internal
deriving DecidableEq, Repr

/-- Operations `Blinky` issues to the monochrome LED driver and the blink
timer. -/
inductive MonoLedOp where
  | turnOff
  | turnOn
  | toggle
  | wait
deriving DecidableEq, Repr

/-- State of the `Blinky` service: whether the monochrome LED is on and
whether a blink-loop task is registered with the dispatcher. -/
structure Blinky where
  monoLedOn : Bool
  taskRegistered : Bool
deriving DecidableEq, Repr

/-- `Blinky::SetLed(on)`: deregister the blink task, then turn the
monochrome LED on or off; returns the new state, the LED operations issued
and the log lines emitted. -/
def Blinky.SetLed (enable : Bool) (b : Blinky) :
    Blinky × List MonoLedOp × List String :=
  let b1 := { b with taskRegistered := false }
  if enable then
    ({ b1 with monoLedOn := true }, [MonoLedOp.turnOn], ["Setting LED on"])
  else
    ({ b1 with monoLedOn := false }, [MonoLedOp.turnOff], ["Setting LED off"])

/-- `Blinky::Toggle()`: deregister the blink task, then toggle the
monochrome LED. -/
def Blinky.Toggle (b : Blinky) : Blinky × List MonoLedOp × List String :=
  ({ b with taskRegistered := false, monoLedOn := !b.monoLedOn },
   [MonoLedOp.toggle], ["Toggling LED"])

/-- `Blinky::BlinkTwice()`: every executable statement of its original body
is commented out in blinky.cc; what remains is the `PW_LOG_INFO` line
(with `num_toggles = 4`, `interval_ms = 1000`, logging `num_toggles / 2`)
and `return OkStatus()`.  Returns (new state, LED operations issued, log
lines emitted, status). -/
def Blinky.BlinkTwice (b : Blinky) :
    Blinky × List MonoLedOp × List String × PwStatus :=
  let num_toggles : Nat := 4
  let interval_ms : Nat := 1000
  let logline := "Blinking " ++ toString (num_toggles / 2) ++ " times at a "
      ++ toString interval_ms ++ "ms interval"
  (b, [], [logline], PwStatus.ok)

/-- The loop guard of `Blinky::BlinkLoop`:
`blinked < blink_count || blink_count == 0`. -/
def blinkGuard (blink_count blinked : Nat) : Bool :=
  decide (blinked < blink_count) || decide (blink_count = 0)

/-- Fuel-indexed evaluation of `Blinky::BlinkLoop` starting at loop counter
`blinked`: each iteration whose guard holds turns the LED off, waits, turns
it on and waits again; when the guard fails the loop exits, the LED is
turned off once more and `OkStatus()` is returned.  `none` means the loop
did not terminate within `fuel` iterations. -/
def blinkLoopFuel (blink_count : Nat) :
    Nat → Nat → Option (List MonoLedOp × PwStatus)
  | blinked, 0 =>
    if blinkGuard blink_count blinked then none
    else some ([MonoLedOp.turnOff], PwStatus.ok)
  | blinked, Nat.succ fuel =>
    if blinkGuard blink_count blinked then
      Option.map
        (fun r => (MonoLedOp.turnOff :: MonoLedOp.wait :: MonoLedOp.turnOn ::
          MonoLedOp.wait :: r.1, r.2))
        (blinkLoopFuel blink_count (blinked + 1) fuel)
    else some ([MonoLedOp.turnOff], PwStatus.ok)

/-- The LED-operation trace of `n` complete blink-loop iterations:
`n` off/on toggle pairs with the interval waits between them. -/
def blinkPairs : Nat → List MonoLedOp
  | 0 => []
  | Nat.succ n => MonoLedOp.turnOff :: MonoLedOp.wait :: MonoLedOp.turnOn ::
      MonoLedOp.wait :: blinkPairs n

/-- A concrete LED output layer in passthrough state with the hardware in
sync, as it is right after the first mode construction. -/
def sampleLed : LedOutputStateMachine :=
  { state := LedSMState.kPassthrough, brightness := 220, red := 0,
    green := 0, blue := 0,
    led := { color := HwColor.rgb 0 0 0, brightness := 220 } }

/-- A concrete controller state used to instantiate the theorems. -/
def sampleManager : StateManager :=
  { led := sampleLed, mode := ModeK.AirQualityMode, timer := none,
    alarmed := false, current_threshold := 384,
    last_air_quality_score := 512, air_quality_score_string := "384",
    published := [], log := [] }

/-! ### Helper lemmas about the output layer and `SetState` -/

@[simp]
theorem UpdateLed_state (m : LedOutputStateMachine) :
    m.UpdateLed.state = m.state := by
  unfold LedOutputStateMachine.UpdateLed
  split <;> rfl

@[simp]
theorem UpdateLed_brightness (m : LedOutputStateMachine) :
    m.UpdateLed.brightness = m.brightness := by
  unfold LedOutputStateMachine.UpdateLed
  split <;> rfl

@[simp]
theorem UpdateLed_red (m : LedOutputStateMachine) :
    m.UpdateLed.red = m.red := by
  unfold LedOutputStateMachine.UpdateLed
  split <;> rfl

@[simp]
theorem UpdateLed_green (m : LedOutputStateMachine) :
    m.UpdateLed.green = m.green := by
  unfold LedOutputStateMachine.UpdateLed
  split <;> rfl

@[simp]
theorem UpdateLed_blue (m : LedOutputStateMachine) :
    m.UpdateLed.blue = m.blue := by
  unfold LedOutputStateMachine.UpdateLed
  split <;> rfl

theorem UpdateLed_led_passthrough (m : LedOutputStateMachine)
    (h : m.state = LedSMState.kPassthrough) :
    m.UpdateLed.led =
      { color := HwColor.rgb m.red m.green m.blue,
        brightness := m.brightness } := by
  unfold LedOutputStateMachine.UpdateLed
  rw [if_pos h]

theorem UpdateLed_led_override (m : LedOutputStateMachine)
    (h : m.state = LedSMState.kOverride) :
    m.UpdateLed.led = m.led := by
  unfold LedOutputStateMachine.UpdateLed
  rw [if_neg]
  rw [h]
  intro hc
  exact LedSMState.noConfusion hc

@[simp]
theorem SetState_mode (m : ModeK) (s : StateManager) :
    (s.SetState m).mode = m := by
  cases m <;>
    simp [StateManager.SetState, StateManager.emplace,
      StateManager.LogStateChange, StateManager.cancelTimer,
      StateManager.stateCtor, StateManager.timeoutCtor,
      StateManager.DisplayThreshold, StateManager.StartMorseReadout]

theorem SetState_timer (m : ModeK) (s : StateManager) :
    (s.SetState m).timer = timeoutOf m := by
  cases m <;>
    simp [StateManager.SetState, StateManager.emplace,
      StateManager.LogStateChange, StateManager.cancelTimer,
      StateManager.stateCtor, StateManager.timeoutCtor,
      StateManager.DisplayThreshold, StateManager.StartMorseReadout,
      timeoutOf]

theorem SetState_brightness (m : ModeK) (s : StateManager) :
    (s.SetState m).led.brightness = kDefaultBrightness := by
  cases m <;>
    simp [StateManager.SetState, StateManager.emplace,
      StateManager.LogStateChange, StateManager.cancelTimer,
      StateManager.stateCtor, StateManager.timeoutCtor,
      StateManager.DisplayThreshold, StateManager.StartMorseReadout,
      LedOutputStateMachine.SetBrightness, LedOutputStateMachine.SetColor]

theorem SetState_alarmed (m : ModeK) (s : StateManager) :
    (s.SetState m).alarmed = s.alarmed := by
  cases m <;>
    simp [StateManager.SetState, StateManager.emplace,
      StateManager.LogStateChange, StateManager.cancelTimer,
      StateManager.stateCtor, StateManager.timeoutCtor,
      StateManager.DisplayThreshold, StateManager.StartMorseReadout]

theorem SetState_log (m : ModeK) (s : StateManager) :
    (s.SetState m).log = (modeName s.mode, modeName m) :: s.log := by
  cases m <;>
    simp [StateManager.SetState, StateManager.emplace,
      StateManager.LogStateChange, StateManager.cancelTimer,
      StateManager.stateCtor, StateManager.timeoutCtor,
      StateManager.DisplayThreshold, StateManager.StartMorseReadout]

/-- A concrete controller state in `ProximityDemo` mode, used to
instantiate theorems whose hypotheses require that mode. -/
def sampleProx : StateManager :=
  { sampleManager with mode := ModeK.ProximityDemo }

theorem IncrementThreshold_threshold (d : Nat) (s : StateManager) :
    (s.IncrementThreshold d).current_threshold =
      min (s.current_threshold + kThresholdIncrement) kMaxThreshold := rfl

theorem DecrementThreshold_threshold (d : Nat) (s : StateManager) :
    (s.DecrementThreshold d).current_threshold =
      s.current_threshold - kThresholdIncrement := rfl

theorem thresholdOp_inv (d : Nat) (op : ThresholdOp) (s : StateManager)
    (h1 : s.current_threshold % kThresholdIncrement = 0)
    (h2 : s.current_threshold ≤ kMaxThreshold) :
    (applyThresholdOp d op s).current_threshold % kThresholdIncrement = 0 ∧
    (applyThresholdOp d op s).current_threshold ≤ kMaxThreshold := by
  simp only [kThresholdIncrement, kMaxThreshold] at h1 h2 ⊢
  cases op
  · rw [applyThresholdOp, IncrementThreshold_threshold]
    simp only [kThresholdIncrement, kMaxThreshold]
    rw [Nat.min_def]
    constructor
    · split <;> omega
    · split <;> omega
  · rw [applyThresholdOp, DecrementThreshold_threshold]
    simp only [kThresholdIncrement]
    constructor
    · omega
    · omega

theorem thresholdOps_inv (d : Nat) (ops : List ThresholdOp) :
    ∀ s : StateManager, s.current_threshold % kThresholdIncrement = 0 →
      s.current_threshold ≤ kMaxThreshold →
      (applyThresholdOps d ops s).current_threshold % kThresholdIncrement = 0 ∧
      (applyThresholdOps d ops s).current_threshold ≤ kMaxThreshold := by
  induction ops with
  | nil => intro s h1 h2; exact ⟨h1, h2⟩
  | cons op ops ih =>
    intro s h1 h2
    obtain ⟨h3, h4⟩ := thresholdOp_inv d op s h1 h2
    exact ih (applyThresholdOp d op s) h3 h4

theorem blinkLoopFuel_zero_count (fuel : Nat) : ∀ blinked : Nat,
    blinkLoopFuel 0 blinked fuel = none := by
  induction fuel with
  | zero =>
    intro blinked
    simp [blinkLoopFuel, blinkGuard]
  | succ fuel ih =>
    intro blinked
    simp [blinkLoopFuel, blinkGuard, ih]

theorem blinkLoopFuel_run (c : Nat) (hc : 0 < c) : ∀ n b : Nat, b + n = c →
    blinkLoopFuel c b n =
      some (blinkPairs n ++ [MonoLedOp.turnOff], PwStatus.ok) := by
  intro n
  induction n with
  | zero =>
    intro b hb
    have hg : blinkGuard c b = false := by
      simp only [blinkGuard]
      simp only [Bool.or_eq_false_iff, decide_eq_false_iff_not]
      omega
    simp [blinkLoopFuel, hg, blinkPairs]
  | succ n ih =>
    intro b hb
    have hg : blinkGuard c b = true := by
      simp only [blinkGuard]
      simp only [Bool.or_eq_true, decide_eq_true_eq]
      omega
    rw [blinkLoopFuel, if_pos hg, ih (b + 1) (by omega)]
    simp [blinkPairs]

/-! ### Claim theorems -/

/-- Claim C1: every `SetState<M>()` call is exactly the sequence: cancel the
countdown timer unconditionally, destroy the current mode and construct `M`
in the same storage slot (the entry action, including the base constructor's
brightness reset to the default, runs there), and log the
(old-name, new-name) pair; afterwards exactly one mode is active, namely
`M`, with the countdown timer armed for `M`'s fixed duration if and only if
`M` is timeout-bearing and unarmed otherwise, and with the output brightness
reset to the default. -/
theorem setState_sequence_and_postcondition (m : ModeK) (s : StateManager) :
    s.SetState m =
      StateManager.LogStateChange (modeName s.mode)
        (StateManager.emplace m s.cancelTimer) ∧
    (s.SetState m).mode = m ∧
    (s.SetState m).timer = timeoutOf m ∧
    ((s.SetState m).timer.isSome = timeoutBearing m) ∧
    (s.SetState m).led.brightness = kDefaultBrightness ∧
    (s.SetState m).log = (modeName s.mode, modeName m) :: s.log := by
  refine ⟨rfl, SetState_mode m s, SetState_timer m s, ?_,
    SetState_brightness m s, SetState_log m s⟩
  rw [SetState_timer m s]
  cases m <;> rfl

/-- Claim C3: in every mode, delivering alarm-state-changed(`a`) with `a`
different from the stored `alarmed` flag updates the flag and forces a
transition to `AirQualityAlarmMode` (`a` true) or `AirQualityMode`
(`a` false) — no mode overrides this handler, so the same base-class
handling runs with priority in every mode — while delivering it with `a`
equal to the stored flag changes nothing at all. -/
theorem alarmStateChanged_forced_transition (s : StateManager) (a : Bool) :
    (s.alarmed = a → s.AlarmStateChanged a = s) ∧
    (s.alarmed ≠ a →
      (s.AlarmStateChanged a).alarmed = a ∧
      (s.AlarmStateChanged a).mode =
        (if a then ModeK.AirQualityAlarmMode else ModeK.AirQualityMode)) := by
  constructor
  · intro h
    simp [StateManager.AlarmStateChanged, h]
  · intro h
    simp only [StateManager.AlarmStateChanged, if_neg h]
    cases a <;> simp [SetState_alarmed, SetState_mode]

/-- Claim C5: each timeout-bearing mode arms the countdown for its fixed
duration when entered (3 seconds for `AirQualityThresholdMode`, 30 seconds
for the three demo modes); in every timeout-bearing mode a button-Y release
transitions to `MorseReadout` and a demo-timer-expired event transitions to
`AirQualityMode`; and in every non-timeout-bearing mode demo-timer-expired
is a no-op. -/
theorem timeout_modes_contract (s : StateManager) :
    (s.SetState ModeK.AirQualityThresholdMode).timer = some 3 ∧
    (s.SetState ModeK.ProximityDemo).timer = some 30 ∧
    (s.SetState ModeK.MorseCodeDemo).timer = some 30 ∧
    (s.SetState ModeK.ColorRotationDemo).timer = some 30 ∧
    (timeoutBearing s.mode = true →
      s.ButtonYReleased.mode = ModeK.MorseReadout ∧
      s.DemoModeTimerExpired.mode = ModeK.AirQualityMode) ∧
    (timeoutBearing s.mode = false → s.DemoModeTimerExpired = s) := by
  refine ⟨SetState_timer _ s, SetState_timer _ s, SetState_timer _ s,
    SetState_timer _ s, ?_, ?_⟩
  · intro h
    cases hm : s.mode <;> rw [hm] at h <;> simp [timeoutBearing] at h <;>
      simp [StateManager.ButtonYReleased, StateManager.DemoModeTimerExpired,
        hm, SetState_mode]
  · intro h
    cases hm : s.mode <;> rw [hm] at h <;> simp [timeoutBearing] at h <;>
      simp [StateManager.DemoModeTimerExpired, hm]

/-- Claim C7: from `ProximityDemo`, three successive button-X releases
visit `MorseCodeDemo`, then `ColorRotationDemo`, and return to
`ProximityDemo`. -/
theorem demo_cycle_three_x_releases (s : StateManager)
    (h : s.mode = ModeK.ProximityDemo) :
    s.ButtonXReleased.mode = ModeK.MorseCodeDemo ∧
    s.ButtonXReleased.ButtonXReleased.mode = ModeK.ColorRotationDemo ∧
    s.ButtonXReleased.ButtonXReleased.ButtonXReleased.mode =
      ModeK.ProximityDemo := by
  have h1 : s.ButtonXReleased = s.SetState ModeK.MorseCodeDemo := by
    simp [StateManager.ButtonXReleased, h]
  have h2 : s.ButtonXReleased.ButtonXReleased =
      (s.SetState ModeK.MorseCodeDemo).SetState ModeK.ColorRotationDemo := by
    rw [h1]
    simp [StateManager.ButtonXReleased, SetState_mode]
  have h3 : s.ButtonXReleased.ButtonXReleased.ButtonXReleased =
      ((s.SetState ModeK.MorseCodeDemo).SetState
        ModeK.ColorRotationDemo).SetState ModeK.ProximityDemo := by
    rw [h2]
    simp [StateManager.ButtonXReleased, SetState_mode]
  rw [h3, h2, h1]
  exact ⟨SetState_mode _ _, SetState_mode _ _, SetState_mode _ _⟩

/-- Claim C2: starting from any threshold in {0, 128, ..., 768}, any finite
sequence of increments and decrements keeps the threshold in that set; each
increment adds 128 clamped to at most 768, each decrement subtracts 128
clamped to at least 0, an adjustment at a boundary is a no-op, and each call
re-renders the display string from the new threshold and re-arms the
countdown timer with the given duration. -/
theorem threshold_clamped_contract (d : Nat) (ops : List ThresholdOp)
    (s : StateManager)
    (h1 : s.current_threshold % kThresholdIncrement = 0)
    (h2 : s.current_threshold ≤ kMaxThreshold) :
    ((applyThresholdOps d ops s).current_threshold % kThresholdIncrement = 0 ∧
     (applyThresholdOps d ops s).current_threshold ≤ kMaxThreshold) ∧
    (s.IncrementThreshold d).current_threshold =
      min (s.current_threshold + kThresholdIncrement) kMaxThreshold ∧
    (s.DecrementThreshold d).current_threshold =
      s.current_threshold - kThresholdIncrement ∧
    (s.current_threshold = kMaxThreshold →
      (s.IncrementThreshold d).current_threshold = s.current_threshold) ∧
    (s.current_threshold = 0 →
      (s.DecrementThreshold d).current_threshold = s.current_threshold) ∧
    (s.IncrementThreshold d).air_quality_score_string =
      toString (s.IncrementThreshold d).current_threshold ∧
    (s.DecrementThreshold d).air_quality_score_string =
      toString (s.DecrementThreshold d).current_threshold ∧
    (s.IncrementThreshold d).timer = some d ∧
    (s.DecrementThreshold d).timer = some d := by
  refine ⟨thresholdOps_inv d ops s h1 h2, rfl, rfl, ?_, ?_, rfl, rfl, rfl,
    rfl⟩
  · intro h
    rw [IncrementThreshold_threshold, h]
    rfl
  · intro h
    rw [DecrementThreshold_threshold, h]
    rfl

/-- Claim C2 witness: three adjustments from the default threshold 384. -/
theorem threshold_clamped_contract_witness :
    (applyThresholdOps 3 [ThresholdOp.inc, ThresholdOp.inc, ThresholdOp.dec]
        sampleManager).current_threshold % kThresholdIncrement = 0 ∧
    (applyThresholdOps 3 [ThresholdOp.inc, ThresholdOp.inc, ThresholdOp.dec]
        sampleManager).current_threshold ≤ kMaxThreshold :=
  (threshold_clamped_contract 3
    [ThresholdOp.inc, ThresholdOp.inc, ThresholdOp.dec] sampleManager
    (by decide) (by decide)).1

/-- Claim C3 witness: raising the alarm from the initial, un-alarmed state
forces a transition to `AirQualityAlarmMode`. -/
theorem alarmStateChanged_forced_transition_witness :
    (sampleManager.AlarmStateChanged true).alarmed = true ∧
    (sampleManager.AlarmStateChanged true).mode =
      (if true then ModeK.AirQualityAlarmMode else ModeK.AirQualityMode) :=
  ⟨((alarmStateChanged_forced_transition sampleManager true).2
     (by decide)).1,
   ((alarmStateChanged_forced_transition sampleManager true).2
     (by decide)).2⟩

/-- Claim C5 witness: in `ProximityDemo` (timeout-bearing), button Y goes to
`MorseReadout` and timer expiry goes to `AirQualityMode`. -/
theorem timeout_modes_contract_witness :
    timeoutBearing sampleProx.mode = true ∧
    sampleProx.ButtonYReleased.mode = ModeK.MorseReadout ∧
    sampleProx.DemoModeTimerExpired.mode = ModeK.AirQualityMode :=
  ⟨by decide,
   ((timeout_modes_contract sampleProx).2.2.2.2.1 (by decide)).1,
   ((timeout_modes_contract sampleProx).2.2.2.2.1 (by decide)).2⟩

/-- Claim C7 witness: three button-X releases from a concrete
`ProximityDemo` state cycle back to `ProximityDemo`. -/
theorem demo_cycle_three_x_releases_witness :
    sampleProx.ButtonXReleased.mode = ModeK.MorseCodeDemo ∧
    sampleProx.ButtonXReleased.ButtonXReleased.mode =
      ModeK.ColorRotationDemo ∧
    sampleProx.ButtonXReleased.ButtonXReleased.ButtonXReleased.mode =
      ModeK.ProximityDemo :=
  demo_cycle_three_x_releases sampleProx (by decide)

/-- Claim C6: `SetColor`/`SetBrightness` always update the stored
passthrough values and write them to the hardware LED exactly when the
layer is in passthrough state; `Override` switches to override state and
writes the given values immediately without touching the stored passthrough
values; `EndOverride` switches back to passthrough and re-applies the stored
values, so passthrough writes made during an override take effect when it
ends and no value is lost. -/
theorem led_output_layer_contract (m : LedOutputStateMachine) (v : LedValue)
    (b c ob : Nat) :
    ((m.SetColor v).red = v.r ∧ (m.SetColor v).green = v.g ∧
     (m.SetColor v).blue = v.b ∧ (m.SetColor v).brightness = m.brightness ∧
     (m.SetColor v).state = m.state) ∧
    ((m.SetBrightness b).brightness = b ∧ (m.SetBrightness b).red = m.red ∧
     (m.SetBrightness b).green = m.green ∧
     (m.SetBrightness b).blue = m.blue ∧
     (m.SetBrightness b).state = m.state) ∧
    (m.state = LedSMState.kPassthrough →
      (m.SetColor v).led =
        { color := HwColor.rgb v.r v.g v.b, brightness := m.brightness } ∧
      (m.SetBrightness b).led =
        { color := HwColor.rgb m.red m.green m.blue, brightness := b }) ∧
    (m.state = LedSMState.kOverride →
      (m.SetColor v).led = m.led ∧ (m.SetBrightness b).led = m.led) ∧
    ((m.Override c ob).state = LedSMState.kOverride ∧
     (m.Override c ob).led =
       { color := HwColor.packed c, brightness := ob } ∧
     (m.Override c ob).red = m.red ∧ (m.Override c ob).green = m.green ∧
     (m.Override c ob).blue = m.blue ∧
     (m.Override c ob).brightness = m.brightness) ∧
    (m.EndOverride.state = LedSMState.kPassthrough ∧
     m.EndOverride.led =
       { color := HwColor.rgb m.red m.green m.blue,
         brightness := m.brightness }) ∧
    (((m.Override c ob).SetColor v).SetBrightness b).EndOverride.led =
      { color := HwColor.rgb v.r v.g v.b, brightness := b } := by
  refine ⟨?_, ?_, ?_, ?_, ?_, ?_, ?_⟩
  · simp [LedOutputStateMachine.SetColor]
  · simp [LedOutputStateMachine.SetBrightness]
  · intro h
    constructor
    · simp [LedOutputStateMachine.SetColor, LedOutputStateMachine.UpdateLed, h]
    · simp [LedOutputStateMachine.SetBrightness,
        LedOutputStateMachine.UpdateLed, h]
  · intro h
    constructor
    · simp [LedOutputStateMachine.SetColor, LedOutputStateMachine.UpdateLed, h]
    · simp [LedOutputStateMachine.SetBrightness,
        LedOutputStateMachine.UpdateLed, h]
  · exact ⟨rfl, rfl, rfl, rfl, rfl, rfl⟩
  · constructor
    · rfl
    · exact UpdateLed_led_passthrough _ rfl
  · simp [LedOutputStateMachine.Override, LedOutputStateMachine.SetColor,
      LedOutputStateMachine.SetBrightness, LedOutputStateMachine.EndOverride,
      LedOutputStateMachine.UpdateLed]

/-- Claim C6 witness: a passthrough write made during an override becomes
visible when the override ends. -/
theorem led_output_layer_contract_witness :
    sampleLed.state = LedSMState.kPassthrough ∧
    (sampleLed.SetColor ⟨10, 20, 30⟩).led =
      { color := HwColor.rgb 10 20 30, brightness := sampleLed.brightness } ∧
    (sampleLed.SetBrightness 99).led =
      { color := HwColor.rgb sampleLed.red sampleLed.green sampleLed.blue,
        brightness := 99 } :=
  ⟨by decide,
   ((led_output_layer_contract sampleLed ⟨10, 20, 30⟩ 99 7 8).2.2.1
     (by decide)).1,
   ((led_output_layer_contract sampleLed ⟨10, 20, 30⟩ 99 7 8).2.2.1
     (by decide)).2⟩

/-- The passthrough-synchronisation property: whenever the layer is in
passthrough state, the hardware LED shows the stored passthrough values.
Every output-layer operation leaves the layer in a state satisfying it,
which is why it holds at every reachable state. -/
def ledSync (m : LedOutputStateMachine) : Prop :=
  m.state = LedSMState.kPassthrough →
    m.led = { color := HwColor.rgb m.red m.green m.blue,
              brightness := m.brightness }

theorem ledSync_after_any_op (m : LedOutputStateMachine) (v : LedValue)
    (b c ob : Nat) :
    ledSync (m.SetColor v) ∧ ledSync (m.SetBrightness b) ∧
    ledSync (m.Override c ob) ∧ ledSync m.EndOverride := by
  refine ⟨?_, ?_, ?_, ?_⟩ <;> intro h
  · rw [LedOutputStateMachine.SetColor] at h ⊢
    rw [UpdateLed_led_passthrough _ (by simpa using h)]
    simp
  · rw [LedOutputStateMachine.SetBrightness] at h ⊢
    rw [UpdateLed_led_passthrough _ (by simpa using h)]
    simp
  · exact absurd h (by simp [LedOutputStateMachine.Override])
  · rw [LedOutputStateMachine.EndOverride] at h ⊢
    rw [UpdateLed_led_passthrough _ rfl]
    simp

/-- Claim C8: `EndOverride` in passthrough state (with the hardware LED in
sync with the stored values, as at every reachable state — see
`ledSync_after_any_op`) changes nothing at all, and cancelling an unarmed
countdown timer changes nothing at all. -/
theorem endOverride_and_cancel_idempotent :
    (∀ m : LedOutputStateMachine, m.state = LedSMState.kPassthrough →
      m.led = { color := HwColor.rgb m.red m.green m.blue,
                brightness := m.brightness } →
      m.EndOverride = m) ∧
    (∀ s : StateManager, s.timer = none → s.cancelTimer = s) := by
  constructor
  · intro m h1 h2
    obtain ⟨st, br, r, g, bl, led⟩ := m
    dsimp only at h1 h2
    subst h1
    subst h2
    rfl
  · intro s h
    obtain ⟨l, mo, ti, al, ct, la, aq, pu, lg⟩ := s
    dsimp only at h
    subst h
    rfl

/-- Claim C8 witness: `EndOverride` on the in-sync passthrough sample state
and `cancelTimer` on the unarmed sample state are both no-ops. -/
theorem endOverride_and_cancel_idempotent_witness :
    sampleLed.EndOverride = sampleLed ∧
    sampleManager.cancelTimer = sampleManager :=
  ⟨endOverride_and_cancel_idempotent.1 sampleLed (by decide) (by decide),
   endOverride_and_cancel_idempotent.2 sampleManager (by decide)⟩

/-- Claim C4 (code evidence): no alternative of the pubsub `Event` variant
is the demo-timer-expired, alarm-silence-request or morse-encode-request
kind, yet the state manager constructs and publishes events of all three
kinds (its timer expiry callback publishes demo-timer-expired from every
state, `AirQualityAlarmMode` publishes alarm-silence-request{60} on button
Y, and `MorseCodeDemo` publishes morse-encode-request{"PW", repeat 0} on
entry). -/
theorem event_variant_missing_internal_kinds :
    (eventVariantKindNames.contains
      (pubEventKindName PubEvent.demoModeTimerExpired) = false) ∧
    (eventVariantKindNames.contains
      (pubEventKindName (PubEvent.alarmSilenceRequest 60)) = false) ∧
    (eventVariantKindNames.contains
      (pubEventKindName (PubEvent.morseEncodeRequest "PW" 0)) = false) ∧
    (∀ s : StateManager, s.timerExpiryCallback.published =
      PubEvent.demoModeTimerExpired :: s.published) ∧
    ({ sampleManager with
        mode := ModeK.AirQualityAlarmMode : StateManager
      }).ButtonYReleased.published =
      PubEvent.alarmSilenceRequest 60 :: sampleManager.published ∧
    (sampleManager.SetState ModeK.MorseCodeDemo).published =
      PubEvent.morseEncodeRequest "PW" 0 :: sampleManager.published := by
  refine ⟨by decide, by decide, by decide, ?_, ?_, ?_⟩
  · intro s
    rfl
  · rfl
  · rfl

/-- Claim C9: `Blinky::BlinkTwice` issues no LED operation, leaves the
`Blinky` state untouched (its whole original body is commented out in
blinky.cc, leaving only the log line and the return), and unconditionally
returns OkStatus, in every state. -/
theorem blinkTwice_no_effect_ok (b : Blinky) :
    b.BlinkTwice =
      (b, [], ["Blinking 2 times at a 1000ms interval"], PwStatus.ok) ∧
    b.BlinkTwice.1 = b ∧
    b.BlinkTwice.2.1 = ([] : List MonoLedOp) ∧
    b.BlinkTwice.2.2.2 = PwStatus.ok :=
  ⟨rfl, rfl, rfl, rfl⟩

/-- Claim C10: `Blinky::BlinkLoop` terminates exactly when `blink_count` is
positive; with a positive count it performs exactly `blink_count` off/on
toggle pairs (with the interval waits), then turns the LED off once more
and returns OkStatus; with `blink_count = 0` it never terminates, whatever
fuel it is given. -/
theorem blinkLoop_terminates_iff_positive (c : Nat) :
    (0 < c → blinkLoopFuel c 0 c =
      some (blinkPairs c ++ [MonoLedOp.turnOff], PwStatus.ok)) ∧
    (∀ fuel blinked : Nat, blinkLoopFuel 0 blinked fuel = none) ∧
    ((∃ fuel r, blinkLoopFuel c 0 fuel = some r) ↔ 0 < c) := by
  refine ⟨?_, ?_, ?_, ?_⟩
  · intro hc
    exact blinkLoopFuel_run c hc c 0 (by omega)
  · intro fuel blinked
    exact blinkLoopFuel_zero_count fuel blinked
  · rintro ⟨fuel, r, hr⟩
    by_contra hc
    have h0 : c = 0 := by omega
    subst h0
    rw [blinkLoopFuel_zero_count fuel 0] at hr
    exact Option.noConfusion hr
  · intro hc
    exact ⟨c, _, blinkLoopFuel_run c hc c 0 (by omega)⟩

/-- Claim C10 witness: two blinks terminate with exactly two off/on pairs
followed by a final off. -/
theorem blinkLoop_terminates_iff_positive_witness :
    0 < 2 ∧ blinkLoopFuel 2 0 2 =
      some (blinkPairs 2 ++ [MonoLedOp.turnOff], PwStatus.ok) :=
  ⟨by decide, (blinkLoop_terminates_iff_positive 2).1 (by decide)⟩

end sense
